import Mathlib

/-!
Verification of the alya.io FastAPI service against its specification.

Shallow embedding of the repository's Python sources:
  * `src/core/config.py`   — the `Settings.assemble_cors_origins` validator
  * `src/api/middleware/logging.py` — `LoggingMiddleware.dispatch`
  * `src/api/app.py`        — the 404 handler installed in `create_app`
  * `src/api/routes/root.py`   — `root`
  * `src/api/routes/health.py` — `health_check`, `get_uptime`
  * `src/main.py`           — `signal_handler`

Machine-level conventions: Python strings are `String`, Python lists of
strings are `List String`, a raised exception is the `.error` side of an
`Except`.  Wall-clock times are abstracted as parameters (only their data
flow matters to the claims, never float arithmetic).
-/

/-- Python exceptions relevant to this code base. -/
inductive PyError where
  | nameError (name : String)
  | attributeError (ty attr : String)
  | valueError (repr : String)
  deriving DecidableEq, Repr

/-- The runtime shape of the raw `BACKEND_CORS_ORIGINS` value handed to the
pydantic validator: a Python `str`, a Python `list` of strings, or any other
object (carried as its textual repr). -/
inductive PyValue where
  | str (s : String)
  | list (l : List String)
  | other (repr : String)
  deriving DecidableEq, Repr

def PyValue.isStr : PyValue → Bool
  | .str _ => true
  | _ => false

def PyValue.isList : PyValue → Bool
  | .list _ => true
  | _ => false

/-- Characters stripped by Python `str.strip()` (the ASCII whitespace set;
the inputs this service handles are ASCII). -/
def isPySpace (c : Char) : Bool :=
  c = ' ' || c = '\t' || c = '\n' || c = '\r' || c = '\x0b' || c = '\x0c'

/-- Python `str.strip()` on the character list. -/
def pyStripCore (cs : List Char) : List Char :=
  ((cs.dropWhile isPySpace).reverse.dropWhile isPySpace).reverse

/-- Python `s.strip()`. -/
def pyStrip (s : String) : String :=
  String.mk (pyStripCore s.toList)

/-- Python `s.split(",")` on the character list: every comma is a cut point,
empty pieces are kept, and the empty input yields one empty piece. -/
def pySplitCommaCore : List Char → List (List Char)
  | [] => [[]]
  | c :: cs =>
    if c = ',' then [] :: pySplitCommaCore cs
    else
      match pySplitCommaCore cs with
      | [] => [[c]]
      | h :: t => (c :: h) :: t

/-- Python `s.split(",")`. -/
def pySplitComma (s : String) : List String :=
  (pySplitCommaCore s.toList).map String.mk

/-- Python `s.startswith("[")`: true iff the string is nonempty and its
first character is `[`. -/
def pyStartswithBracket (s : String) : Bool :=
  match s.toList with
  | [] => false
  | c :: _ => c = '['

/-- `Settings.assemble_cors_origins` from `src/core/config.py` lines 31-38:

```
if isinstance(v, str) and not v.startswith("["):
    return [i.strip() for i in v.split(",")]
elif isinstance(v, (list, str)):
    return v
raise ValueError(v)
```
-/
def assemble_cors_origins (v : PyValue) : Except PyError PyValue :=
  match v with
  | .str s =>
    if pyStartswithBracket s = false then
      .ok (.list ((pySplitComma s).map pyStrip))
    else
      .ok (.str s)
  | .list l => .ok (.list l)
  | .other r => .error (.valueError r)

/-- True iff the validator raised (pydantic turns the `ValueError` into a
validation error that aborts settings construction). -/
def raisesError : Except PyError PyValue → Bool
  | .error _ => true
  | .ok _ => false

/-! ## Logging middleware (`src/api/middleware/logging.py`) -/

/-- The part of a Starlette `Request` the middleware reads. -/
structure Request where
  method : String
  url : String
  headers : List (String × String)
  deriving DecidableEq, Repr

/-- The part of a Starlette `Response` the middleware touches. -/
structure Response where
  status_code : Nat
  headers : List (String × String)
  deriving DecidableEq, Repr

/-- `headers.get(key)`: first match or `None`. -/
def headersGet (hs : List (String × String)) (k : String) : Option String :=
  (hs.find? (fun p => p.1 = k)).map (fun p => p.2)

/-- `headers[key] = value` on Starlette mutable headers: replace an existing
entry, else append. -/
def setHeader (hs : List (String × String)) (k v : String) :
    List (String × String) :=
  if hs.any (fun p => p.1 = k) then
    hs.map (fun p => if p.1 = k then (k, v) else p)
  else
    hs ++ [(k, v)]

/-- A value appearing in a structured log record. -/
inductive LogValue where
  | str (s : String)
  | pyNone
  | nat (n : Nat)
  deriving DecidableEq, Repr

/-- A structured log record: the dict passed to `logger.info`. -/
abbrev LogEntry := List (String × LogValue)

/-- The arrival log record, logging.py lines 12-18.  Note the source fetches
the header literally named `user_agent` (not `user-agent`) and the message
text is the source's own `"Incomfing request"`. -/
def arrivalLog (request_id : String) (request : Request) : LogEntry :=
  [("request_id", .str request_id),
   ("method", .str request.method),
   ("url", .str request.url),
   ("user_agent",
     match headersGet request.headers "user_agent" with
     | some s => .str s
     | none => .pyNone),
   ("message", .str "Incomfing request")]

/-- Line 27 of logging.py evaluates `str(reuqest.url)`.  No local, module
global, or builtin named `reuqest` exists (the bound local is `request`), so
evaluating the expression raises `NameError`. -/
def str_reuqest_url : Except PyError String :=
  .error (.nameError "reuqest")

/-- Line 28 of logging.py evaluates `request.status_code`.  Starlette
requests carry no `status_code` attribute (responses do), so evaluating it
raises `AttributeError`. -/
def request_status_code (_r : Request) : Except PyError Nat :=
  .error (.attributeError "Request" "status_code")

/-- The completion log record the source tries to build, lines 24-31, given
the values its two faulty expressions would have produced. -/
def completionLog (request_id : String) (request : Request) (url : String)
    (status_code : Nat) (fmt3_process_time : String) : LogEntry :=
  [("request_id", .str request_id),
   ("method", .str request.method),
   ("url", .str url),
   ("status_code", .nat status_code),
   ("process_time", .str fmt3_process_time),
   ("message", .str "Request Completed")]

/-- `LoggingMiddleware.dispatch`, logging.py lines 8-36.

`request_id` stands for `str(uuid4())`; `str_process_time` and
`fmt3_process_time` stand for `str(process_time)` and
`f"{process_time:.3f}"` (float rendering abstracted).  Returns the log
records actually emitted together with the outcome: the returned response,
or the exception that escaped.  The dict literal of the completion log
evaluates its values in textual order, so `str(reuqest.url)` runs before
`request.status_code` and before `logger.info` is called. -/
def dispatch (request_id : String) (request : Request)
    (call_next : Request → Response)
    (str_process_time fmt3_process_time : String) :
    List LogEntry × Except PyError Response :=
  let l1 := arrivalLog request_id request
  let response := call_next request
  match str_reuqest_url with
  | .error e => ([l1], .error e)
  | .ok u =>
    match request_status_code request with
    | .error e => ([l1], .error e)
    | .ok sc =>
      let l2 := completionLog request_id request u sc fmt3_process_time
      let hs := setHeader response.headers "X-Request-ID" request_id
      let hs := setHeader hs "X-Process-Time" str_process_time
      ([l1, l2], .ok { response with headers := hs })

/-! ## Application wiring (`src/api/app.py`) -/

/-- The JSON response produced by a handler: status plus a flat string
object body. -/
structure JSONBody where
  status_code : Nat
  content : List (String × String)
  deriving DecidableEq, Repr

/-- `not_found_handler` from `src/api/app.py` lines 31-39: the handler
installed for HTTP 404. -/
def not_found_handler : JSONBody :=
  { status_code := 404
    content := [("error", "Not Found"),
                ("message", "The requested resource was not found")] }

/-! ## Routes -/

/-- `root` from `src/api/routes/root.py` lines 7-12, parameterized by the
configured `settings.VERSION`. -/
def root (version : String) : List (String × String) :=
  [("message", "Welcome to alya.io"), ("version", version)]

/-- The body `health_check` returns.  `uptime` is a real-valued float in
Python; modelled as `Int` (only zero vs. difference matters here). -/
structure HealthBody where
  status : String
  timestamp : String
  uptime : Int
  deriving DecidableEq, Repr

/-- `get_uptime` from `src/api/routes/health.py` lines 15-26:
`stat_mtime` is the outcome of reading `/proc/<pid>/stat` metadata (its
`st_mtime`), `now` the current `time.time()`.  The bare `except:` catches
every exception and falls back to `0.0`. -/
def get_uptime (stat_mtime : Except PyError Int) (now : Int) : Int :=
  match stat_mtime with
  | .ok start_time => now - start_time
  | .error _ => 0

/-- `health_check` from `src/api/routes/health.py` lines 7-13, with the
clock readings as parameters (`now_iso` is `datetime.utcnow().isoformat()`). -/
def health_check (now_iso : String) (stat_mtime : Except PyError Int)
    (now : Int) : HealthBody :=
  { status := "healthy", timestamp := now_iso
    uptime := get_uptime stat_mtime now }

/-! ## Process signals (`src/main.py`) -/

def SIGINT : Nat := 2
def SIGTERM : Nat := 15

/-- The observable effect of `signal_handler`: what it logs and the exit
code passed to `sys.exit`. -/
structure SignalExit where
  logged : String
  exit_code : Nat
  deriving DecidableEq, Repr

/-- `signal_handler` from `src/main.py` lines 23-25:
logs `f"Received signal {sig}"` then calls `sys.exit(0)`. -/
def signal_handler (sig : Nat) : SignalExit :=
  { logged := "Received signal " ++ toString sig, exit_code := 0 }

/-! ## Helper lemmas -/

/-- Splitting a comma-free character list yields exactly one piece: the
whole list. -/
theorem pySplitCommaCore_of_not_mem (cs : List Char) (h : ',' ∉ cs) :
    pySplitCommaCore cs = [cs] := by
  induction cs with
  | nil => rfl
  | cons c cs ih =>
    have hc : ¬ c = ',' := fun e => h (e ▸ List.mem_cons_self c cs)
    have h' : ',' ∉ cs := fun m => h (List.mem_cons_of_mem _ m)
    simp [pySplitCommaCore, hc, ih h']

/-! ## Claims -/

/-- C1: the claim says `dispatch` returns the downstream response with
`X-Request-ID` and `X-Process-Time` headers added.  The code instead always
raises `NameError` while building the completion-log dict (line 27 reads
`str(reuqest.url)`; `reuqest` is unbound — a typo for `request`), so no
headers are ever added and no response is ever returned.  This theorem
evaluates the code at every input: the outcome is the `NameError`. -/
theorem c1_dispatch_always_raises_nameError (request_id : String)
    (request : Request) (call_next : Request → Response)
    (spt fpt : String) :
    (dispatch request_id request call_next spt fpt).2 =
      .error (.nameError "reuqest") := rfl

/-- C2: the claim says `dispatch` emits exactly two log records per request
(arrival and completion).  The code emits exactly one — the arrival record —
because the completion `logger.info` call is never reached: evaluating its
dict argument raises `NameError` on the unbound name `reuqest` (and would
next raise `AttributeError` on `request.status_code`). -/
theorem c2_dispatch_emits_one_log (request_id : String) (request : Request)
    (call_next : Request → Response) (spt fpt : String) :
    (dispatch request_id request call_next spt fpt).1 =
      [arrivalLog request_id request] := rfl

/-- C3: a string value not beginning with `[` is split on commas with each
piece whitespace-trimmed (so `"http://a.com, http://b.com"` yields exactly
`["http://a.com", "http://b.com"]`), and a value that is already a list is
returned unchanged. -/
theorem c3_cors_split_and_passthrough :
    (∀ s : String, pyStartswithBracket s = false →
      assemble_cors_origins (.str s) =
        .ok (.list ((pySplitComma s).map pyStrip)))
    ∧ assemble_cors_origins (.str "http://a.com, http://b.com") =
        .ok (.list ["http://a.com", "http://b.com"])
    ∧ (∀ l : List String,
        assemble_cors_origins (.list l) = .ok (.list l)) := by
  refine ⟨fun s h => ?_, rfl, fun l => rfl⟩
  simp [assemble_cors_origins, h]

theorem c3_witness :
    assemble_cors_origins (.str "http://a.com, http://b.com") =
      .ok (.list ((pySplitComma "http://a.com, http://b.com").map pyStrip)) :=
  c3_cors_split_and_passthrough.1 "http://a.com, http://b.com" (by decide)

/-- C4: the installed 404 handler returns status 404 with exactly the body
`error: Not Found / message: The requested resource was not found`. -/
theorem c4_not_found_handler_fixed_body :
    not_found_handler.status_code = 404 ∧
    not_found_handler.content =
      [("error", "Not Found"),
       ("message", "The requested resource was not found")] :=
  ⟨rfl, rfl⟩

/-- C5: `health_check` never fails (it is total by construction): it returns
status `"healthy"`, the supplied UTC ISO timestamp, and an uptime that is
`0` whenever reading the process-start metadata raised any error. -/
theorem c5_health_check_total (now_iso : String)
    (stat_mtime : Except PyError Int) (now : Int) :
    (health_check now_iso stat_mtime now).status = "healthy" ∧
    (health_check now_iso stat_mtime now).timestamp = now_iso ∧
    (∀ e, stat_mtime = .error e →
      (health_check now_iso stat_mtime now).uptime = 0) := by
  refine ⟨rfl, rfl, fun e he => ?_⟩
  simp [health_check, get_uptime, he]

theorem c5_witness :
    (health_check "2026-10-12T00:00:00"
        (.error (.valueError "OSError")) 100).uptime = 0 :=
  (c5_health_check_total "2026-10-12T00:00:00"
      (.error (.valueError "OSError")) 100).2.2
    (.valueError "OSError") rfl

/-- C6: for every configured version string, `GET /` returns exactly the
two-field body with the fixed welcome message and the version verbatim. -/
theorem c6_root_version_verbatim (version : String) :
    (root version).lookup "message" = some "Welcome to alya.io" ∧
    (root version).lookup "version" = some version ∧
    (root version).length = 2 := ⟨rfl, rfl, rfl⟩

/-- C7: a raw `BACKEND_CORS_ORIGINS` value that is neither a string nor a
list makes the validator raise, so settings construction fails instead of
silently defaulting. -/
theorem c7_cors_rejects_other (v : PyValue) (hs : v.isStr = false)
    (hl : v.isList = false) :
    raisesError (assemble_cors_origins v) = true := by
  cases v with
  | str s => simp [PyValue.isStr] at hs
  | list l => simp [PyValue.isList] at hl
  | other r => rfl

theorem c7_witness :
    raisesError (assemble_cors_origins (.other "42")) = true :=
  c7_cors_rejects_other (.other "42") rfl rfl

/-- C9: the validator is idempotent — whenever it succeeds, running it
again on its own output returns that output unchanged. -/
theorem c9_cors_idempotent (v w : PyValue)
    (h : assemble_cors_origins v = .ok w) :
    assemble_cors_origins w = .ok w := by
  cases v with
  | str s =>
    by_cases hb : pyStartswithBracket s = false
    · simp [assemble_cors_origins, hb] at h
      subst h
      rfl
    · simp [assemble_cors_origins, hb] at h
      subst h
      simp [assemble_cors_origins, hb]
  | list l =>
    simp [assemble_cors_origins] at h
    subst h
    rfl
  | other r =>
    simp [assemble_cors_origins] at h

theorem c9_witness :
    assemble_cors_origins (.list ["http://a.com", "http://b.com"]) =
      .ok (.list ["http://a.com", "http://b.com"]) :=
  c9_cors_idempotent (.str "http://a.com, http://b.com")
    (.list ["http://a.com", "http://b.com"]) rfl

/-- C10: a non-bracketed string with no comma normalizes to the one-element
list holding its trimmed form; in particular the empty string yields
`[""]`, never the empty list. -/
theorem c10_cors_no_comma :
    (∀ s : String, pyStartswithBracket s = false → ',' ∉ s.toList →
      assemble_cors_origins (.str s) = .ok (.list [pyStrip s]))
    ∧ assemble_cors_origins (.str "") = .ok (.list [""]) := by
  constructor
  · intro s hb hc
    have hsplit := pySplitCommaCore_of_not_mem s.toList hc
    simp [assemble_cors_origins, hb, pySplitComma, pyStrip,
      String.toList] at hsplit ⊢
    simp [hsplit]
    rfl
  · rfl

theorem c10_witness :
    assemble_cors_origins (.str " a ") = .ok (.list ["a"]) :=
  c10_cors_no_comma.1 " a " (by decide) (by decide)

/-- C8: for an interrupt (2) or terminate (15) signal, the installed
handler logs the received signal number and exits the process with code 0. -/
theorem c8_signal_handler_exit_zero (sig : Nat)
    (_h : sig = SIGINT ∨ sig = SIGTERM) :
    (signal_handler sig).logged = "Received signal " ++ toString sig ∧
    (signal_handler sig).exit_code = 0 := ⟨rfl, rfl⟩

theorem c8_witness :
    (signal_handler 2).exit_code = 0 :=
  (c8_signal_handler_exit_zero 2 (Or.inl rfl)).2
